import Mathlib

/-!
Verification of the Trybook server (main.go of dan-stowell/try).

The development shallowly embeds the parts of main.go that the spec talks
about: the token validator and clone-path construction, the persistent-store
operations on notebook entries (append, per-model output update, intent
update), the repository cache (ensureRepoCloned and cloneRepo), notebook
creation (createNotebook), and the run dispatcher behaviour after the child
process has been started (runHandler from cmd.Wait onwards, including the
router classification).

Conventions of the embedding:
  - Go strings are Lean String values; the Go functions strings.ToLower,
    strings.TrimSpace and strings.HasPrefix are embedded as goToLower,
    goTrimSpace and goHasPrefix over the character list of the string
    (the ASCII fragment, which covers every literal the program compares
    against).
  - The SQL statements act on explicit row values: a notebook entry row is
    EntryRow, the notebook table a List NotebookRow, the entries of one
    notebook a List EntryRow.
  - External processes (git clone, git worktree add, the model binaries)
    are oracles passed in as arguments: an attempt either succeeds or fails
    with an error text and a combined-output text, exactly the data the Go
    code reads from them.
  - A database call made with the HTTP request context is a no-op returning
    an error once that context is cancelled (the database/sql contract:
    ExecContext fails before executing when its context is done), and a
    chunk written to the response after the client aborted is never
    delivered. Both are threaded through as a cancelled flag.
-/

namespace Trybook

/-! ## Character and string helpers (Go strings package, ASCII fragment) -/

/-- Go unicode.IsSpace restricted to the ASCII whitespace characters
(space, tab, newline, vertical tab, form feed, carriage return). -/
def isSpaceGo (c : Char) : Bool :=
  if c = ' ' ∨ c = Char.ofNat 9 ∨ c = Char.ofNat 10 ∨ c = Char.ofNat 11 ∨
     c = Char.ofNat 12 ∨ c = Char.ofNat 13
  then true else false

/-- ASCII lowercasing of one character, as Go strings.ToLower acts on
ASCII letters. -/
def asciiLower (c : Char) : Char :=
  if 'A' ≤ c ∧ c ≤ 'Z' then Char.ofNat (c.toNat + 32) else c

/-- Go strings.ToLower (ASCII fragment). -/
def goToLower (s : String) : String :=
  ⟨s.data.map asciiLower⟩

/-- Go strings.TrimSpace: strip leading and trailing whitespace. -/
def goTrimSpace (s : String) : String :=
  ⟨((s.data.dropWhile isSpaceGo).reverse.dropWhile isSpaceGo).reverse⟩

/-- Go strings.HasPrefix s pre. -/
def goHasPrefix (s pre : String) : Bool :=
  List.isPrefixOf pre.data s.data

/-! ## Token validator and clone paths (isSafeToken, repoDirPath) -/

/-- One loop iteration of isSafeToken (main.go): the characters the
validator lets through. -/
def isSafeChar (c : Char) : Bool :=
  if c = '-' ∨ c = '_' ∨ c = '.' ∨
     ('a' ≤ c ∧ c ≤ 'z') ∨ ('A' ≤ c ∧ c ≤ 'Z') ∨ ('0' ≤ c ∧ c ≤ '9')
  then true else false

/-- isSafeToken (main.go): empty strings are rejected, every character must
pass isSafeChar. -/
def isSafeToken (s : String) : Bool :=
  if s = "" then false else s.data.all isSafeChar

/-- Lexical path cleaning for a rooted path given as components, as
filepath.Clean inside filepath.Join resolves them: empty and "." components
vanish, ".." removes the preceding component (and vanishes at the root). -/
def cleanComponents (parts : List String) : List String :=
  parts.foldl
    (fun acc p =>
      if p = "" ∨ p = "." then acc
      else if p = ".." then acc.dropLast
      else acc ++ [p])
    []

/-- repoDirPath (main.go): filepath.Join(cloneBaseDir(), org, repo), on the
component representation of a rooted base directory. The validator
guarantees org and repo hold no path separator, so each is one component. -/
def repoDirComponents (base : List String) (org repo : String) : List String :=
  cleanComponents (base ++ [org, repo])

/-- A concrete clone base directory, standing for <home>/.trybook/clone. -/
def cloneBase : List String :=
  ["home", "user", ".trybook", "clone"]

/-! ## Persistent store: notebook entry rows -/

/-- One row of the notebook_entries table (schema in initDB, main.go),
after the two ALTER TABLE statements added output_claude and intent. -/
structure EntryRow where
  idx : Int
  prompt : String
  output : String
  outputClaude : String
  intent : String

/-- COALESCE(MAX(idx), -1) over the entries of one notebook: the maximum
index, with -1 for a notebook with no entries. -/
def maxIdx (rows : List EntryRow) : Int :=
  rows.foldl (fun m r => max m r.idx) (-1)

/-- appendNotebookEntry (main.go): SELECT COALESCE(MAX(idx), -1) + 1, then
INSERT the new row at that index; the new columns get their schema
defaults. Returns the assigned index and the new table state. -/
def appendNotebookEntry (rows : List EntryRow) (prompt : String) :
    Int × List EntryRow :=
  (maxIdx rows + 1,
   rows ++ [{ idx := maxIdx rows + 1, prompt := prompt, output := "",
              outputClaude := "", intent := "" }])

/-- Sequential non-concurrent appendNotebookEntry calls: the list of indices
returned for the given prompts, starting from the given table state. -/
def runAppends (rows : List EntryRow) : List String → List Int
  | [] => []
  | p :: ps =>
    (appendNotebookEntry rows p).1 :: runAppends (appendNotebookEntry rows p).2 ps

/-! ## Persistent store: per-model output and intent updates -/

/-- The column setNotebookEntryOutputForModel (main.go) writes: output,
except output_claude when strings.ToLower(model) == "claude". -/
def outputColForModel (model : String) : String :=
  if goToLower model = "claude" then "output_claude" else "output"

/-- setNotebookEntryOutputForModel (main.go) on the targeted row. -/
def setEntryOutputForModel (e : EntryRow) (model out : String) : EntryRow :=
  if goToLower model = "claude" then { e with outputClaude := out }
  else { e with output := out }

/-- The normalization inside setNotebookEntryIntent (main.go): lowercase the
trimmed text and replace anything other than "edit" or "question" by the
empty string. -/
def normalizeIntent (intent : String) : String :=
  if goToLower (goTrimSpace intent) ≠ "edit" ∧
     goToLower (goTrimSpace intent) ≠ "question"
  then ""
  else goToLower (goTrimSpace intent)

/-- setNotebookEntryIntent (main.go) on the targeted row. -/
def setEntryIntent (e : EntryRow) (intent : String) : EntryRow :=
  { e with intent := normalizeIntent intent }

/-! ## Persistent store: notebooks table and createNotebook -/

/-- One row of the notebooks table (schema in initDB, main.go). -/
structure NotebookRow where
  id : String
  org : String
  repo : String
  branch : String
  worktree : String
  commitSha : String

/-- createNotebook (main.go). The external steps are oracles: mk for
os.MkdirAll on the worktree parent, wt for git worktree add, bc for
currentBranchAndCommit read back from the created worktree (branch and
commit pair), ins for the INSERT. The worktree name is nb-<id>. Returns the
result and the notebooks table after the call. -/
def createNotebook (org repo id : String) (mk wt : Except String Unit)
    (bc : Except String (String × String)) (ins : Except String Unit)
    (rows : List NotebookRow) : Except String String × List NotebookRow :=
  match mk with
  | .error e => (.error ("create worktree parent dir: " ++ e), rows)
  | .ok () =>
    match wt with
    | .error e => (.error ("create worktree: " ++ e), rows)
    | .ok () =>
      match bc with
      | .error e => (.error e, rows)
      | .ok (branch, sha) =>
        match ins with
        | .error e => (.error ("insert notebook: " ++ e), rows)
        | .ok () =>
          (.ok id,
           rows ++ [{ id := id, org := org, repo := repo, branch := branch,
                      worktree := "nb-" ++ id, commitSha := sha }])

/-! ## Repository cache: cloneRepo and ensureRepoCloned -/

/-- Local filesystem state of one clone destination: whether <dest>/.git
exists (the complete-clone marker ensureRepoCloned checks) and whether
<dest> itself exists. -/
structure RepoFS where
  gitDir : Bool
  dest : Bool

/-- First clone attempt of cloneRepo (main.go): named branch main. -/
def attemptMain (src dest : String) : List String :=
  ["git", "clone", "--depth", "1", "--single-branch", "--branch", "main", src, dest]

/-- Second clone attempt of cloneRepo (main.go): named branch master. -/
def attemptMaster (src dest : String) : List String :=
  ["git", "clone", "--depth", "1", "--single-branch", "--branch", "master", src, dest]

/-- Third clone attempt of cloneRepo (main.go): the default branch of the
remote repository. -/
def attemptDefault (src dest : String) : List String :=
  ["git", "clone", "--depth", "1", "--single-branch", src, dest]

/-- The attempts slice of cloneRepo (main.go), in program order. -/
def cloneAttempts (src dest : String) : List (List String) :=
  [attemptMain src dest, attemptMaster src dest, attemptDefault src dest]

/-- Outcome of one cloneRepo call: which attempts were executed, the
resulting filesystem state of the destination, and the returned value. -/
structure CloneResult where
  tried : List (List String)
  fs : RepoFS
  result : Except String Unit

/-- The attempt loop of cloneRepo (main.go). The oracle run gives each
attempt either success (none) or failure with (error text, combined
output). Success creates the destination with its .git directory and
returns; failure removes the destination, and on the final attempt the
error carries that attempt combined output. -/
def cloneLoop (run : List String → Option (String × String)) (fs : RepoFS) :
    List (List String) → CloneResult
  | [] => { tried := [], fs := fs, result := .ok () }
  | args :: rest =>
    match run args with
    | none =>
      { tried := [args], fs := { gitDir := true, dest := true }, result := .ok () }
    | some (errText, out) =>
      match rest with
      | [] =>
        { tried := [args], fs := { gitDir := false, dest := false },
          result := .error ("git clone failed: " ++ errText ++ "\n" ++ out) }
      | r :: rs =>
        { tried := args :: (cloneLoop run { gitDir := false, dest := false } (r :: rs)).tried,
          fs := (cloneLoop run { gitDir := false, dest := false } (r :: rs)).fs,
          result := (cloneLoop run { gitDir := false, dest := false } (r :: rs)).result }

/-- cloneRepo (main.go): run the three attempts in order. -/
def cloneRepo (run : List String → Option (String × String)) (src dest : String)
    (fs : RepoFS) : CloneResult :=
  cloneLoop run fs (cloneAttempts src dest)

/-- Outcome of one ensureRepoCloned call: the resulting filesystem state,
how many times cloneRepo was invoked, and the returned value. -/
structure EnsureResult where
  fs : RepoFS
  cloneCalls : Nat
  result : Except String Unit

/-- ensureRepoCloned (main.go): a present <dest>/.git marker makes the call
a no-op; otherwise a stale destination is removed and cloneRepo runs. -/
def ensureRepoCloned (run : List String → Option (String × String))
    (src dest : String) (fs : RepoFS) : EnsureResult :=
  if fs.gitDir then { fs := fs, cloneCalls := 0, result := .ok () }
  else
    { fs := (cloneRepo run src dest
        (if fs.dest then { gitDir := false, dest := false } else fs)).fs,
      cloneCalls := 1,
      result := (cloneRepo run src dest
        (if fs.dest then { gitDir := false, dest := false } else fs)).result }

/-! ## Run dispatcher: runHandler after process start -/

/-- The router decision in runHandler (main.go): lowercase the trimmed
accumulated output; equal to or prefixed by "edit" gives "edit", equal to
or prefixed by "question" gives "question", anything else the empty
string. -/
def routerIntent (buf : String) : String :=
  if goToLower (goTrimSpace buf) = "edit" ∨
     goHasPrefix (goToLower (goTrimSpace buf)) "edit" = true
  then "edit"
  else if goToLower (goTrimSpace buf) = "question" ∨
          goHasPrefix (goToLower (goTrimSpace buf)) "question" = true
  then "question"
  else ""

/-- Modelled from the words of the spec (Run Dispatcher step 6), for
comparison with routerIntent: case-insensitively, output starting with or
equal to "edit" classifies as edit, starting with or equal to "question"
as question, anything else leaves the intent unset. -/
def routerIntentSpec (out : String) : String :=
  if goHasPrefix (goToLower (goTrimSpace out)) "edit" = true then "edit"
  else if goHasPrefix (goToLower (goTrimSpace out)) "question" = true then "question"
  else ""

/-- A chunk written to the HTTP response, as the client observes it: after
the client aborted the request nothing further is delivered. -/
def emitChunk (cancelled : Bool) (stream : List String) (chunk : String) :
    List String :=
  if cancelled then stream else stream ++ [chunk]

/-- setNotebookEntryOutputForModel called with the request context
(database/sql contract: ExecContext fails before executing once the
context is cancelled, leaving the row unchanged). -/
def execSetOutputForModel (cancelled : Bool) (e : EntryRow) (model out : String) :
    EntryRow :=
  if cancelled then e else setEntryOutputForModel e model out

/-- setNotebookEntryIntent called with the request context (same
database/sql contract as execSetOutputForModel). -/
def execSetIntent (cancelled : Bool) (e : EntryRow) (intent : String) : EntryRow :=
  if cancelled then e else setEntryIntent e intent

/-- runHandler (main.go) from cmd.Wait onwards. Inputs: the dispatched
model, the accumulated combined output buf, the result of cmd.Wait (none
for exit status 0, some errText otherwise; a request cancelled before exit
kills the process, so cancellation surfaces as some errText), and whether
the request context was cancelled by the client. State: the targeted entry
row and the chunks delivered to the client so far. Returns the row and the
delivered stream after the handler finishes. -/
def runAfterStart (model buf : String) (waitErr : Option String)
    (cancelled : Bool) (e : EntryRow) (stream : List String) :
    EntryRow × List String :=
  match waitErr with
  | some errText =>
    (execSetOutputForModel cancelled e model buf,
     emitChunk cancelled stream ("\n[" ++ model ++ " exited with error: " ++ errText ++ "]\n"))
  | none =>
    if model = "router" then
      (execSetIntent cancelled e (routerIntent buf),
       emitChunk cancelled stream "\n[done]\n")
    else
      (execSetOutputForModel cancelled e model buf,
       emitChunk cancelled stream "\n[done]\n")

/-! ## Oracles and concrete rows used by witnesses and counterexamples -/

/-- A process oracle under which every clone attempt succeeds. -/
def runAlwaysOk : List String → Option (String × String) :=
  fun _ => none

/-- A process oracle under which every clone attempt fails with a fixed
error text and combined output. -/
def runAllFail : List String → Option (String × String) :=
  fun _ => some ("exit status 128", "fatal: repository not found")

/-- A concrete entry row with no output yet. -/
def freshEntry : EntryRow :=
  { idx := 0, prompt := "p", output := "", outputClaude := "", intent := "" }

/-! ## Helper lemmas -/

theorem maxIdx_append (rows : List EntryRow) (r : EntryRow) :
    maxIdx (rows ++ [r]) = max (maxIdx rows) r.idx := by
  unfold maxIdx
  rw [List.foldl_append]
  rfl

theorem runAppends_from (ps : List String) : ∀ rows : List EntryRow,
    runAppends rows ps =
      (List.range ps.length).map (fun n : Nat => maxIdx rows + 1 + (n : Int)) := by
  induction ps with
  | nil => intro rows; rfl
  | cons p ps ih =>
    intro rows
    show (maxIdx rows + 1) :: runAppends (rows ++ [_]) ps = _
    rw [ih]
    have hmax : maxIdx (rows ++
        [{ idx := maxIdx rows + 1, prompt := p, output := "", outputClaude := "",
           intent := "" }]) = maxIdx rows + 1 := by
      rw [maxIdx_append]
      show max (maxIdx rows) (maxIdx rows + 1) = maxIdx rows + 1
      exact max_eq_right (by omega)
    rw [hmax, List.length_cons, List.range_succ_eq_map, List.map_cons, List.map_map]
    congr 1
    · simp
    · apply List.map_congr_left
      intro a _
      simp only [Function.comp_apply]
      push_cast
      ring

theorem hasPrefix_of_self (t : String) : goHasPrefix t t = true := by
  unfold goHasPrefix
  exact List.isPrefixOf_iff_prefix.mpr List.prefix_rfl

theorem normalizeIntent_cases (i : String) :
    normalizeIntent i = "edit" ∨ normalizeIntent i = "question" ∨
      normalizeIntent i = "" := by
  unfold normalizeIntent
  split
  · exact Or.inr (Or.inr rfl)
  · rename_i h
    rw [not_and_or, not_not, not_not] at h
    rcases h with h | h
    · exact Or.inl h
    · exact Or.inr (Or.inl h)

theorem routerIntent_cases (s : String) :
    routerIntent s = "edit" ∨ routerIntent s = "question" ∨ routerIntent s = "" := by
  unfold routerIntent
  split
  · exact Or.inl rfl
  · split
    · exact Or.inr (Or.inl rfl)
    · exact Or.inr (Or.inr rfl)

theorem cloneLoop_ok_fs (run : List String → Option (String × String)) :
    ∀ (atts : List (List String)) (fs : RepoFS), atts ≠ [] →
      (cloneLoop run fs atts).result = Except.ok () →
      (cloneLoop run fs atts).fs = { gitDir := true, dest := true } := by
  intro atts
  induction atts with
  | nil => intro fs h; exact absurd rfl h
  | cons a rest ih =>
    intro fs _ hok
    rw [cloneLoop.eq_2] at hok ⊢
    cases hr : run a with
    | none => rfl
    | some p =>
      obtain ⟨errText, out⟩ := p
      rw [hr] at hok
      cases rest with
      | nil => simp at hok
      | cons r rs =>
        exact ih { gitDir := false, dest := false } (by simp) hok

/-! ## Claim theorems -/

/-- C1: for every notebook, N sequential non-concurrent appendNotebookEntry
calls starting from a notebook with no entries return the indices
0, 1, ..., N-1 in order (the Nth call returns N-1); the next index is
always computed as the maximum existing index plus one, and a notebook
with no entries has maximum index -1. -/
theorem appendEntry_sequential_indices (ps : List String) :
    runAppends ([] : List EntryRow) ps = (List.range ps.length).map (fun n : Nat => (n : Int))
  ∧ maxIdx ([] : List EntryRow) = -1
  ∧ (∀ (rows : List EntryRow) (p : String),
       (appendNotebookEntry rows p).1 = maxIdx rows + 1) := by
  refine ⟨?_, rfl, fun rows p => rfl⟩
  rw [runAppends_from]
  apply List.map_congr_left
  intro a _
  show maxIdx ([] : List EntryRow) + 1 + (a : Int) = (a : Int)
  norm_num [maxIdx]

/-- C2: classification happens on the whitespace-trimmed lowercased
accumulated router output — a prefix "edit" classifies as edit, a prefix
"question" as question, anything else leaves the intent unset — and this
agrees with routerIntentSpec, the classification transcribed from the
words of the spec. The stored value is exactly what setNotebookEntryIntent
receives: its normalization fixes every value routerIntent produces, it
stores nothing but "edit", "question" or the empty string, and re-running
classification on the same output yields the same intent because the
classification is a pure function of the output text. -/
theorem router_classification (s : String) :
    routerIntentSpec s = routerIntent s
  ∧ normalizeIntent (routerIntent s) = routerIntent s
  ∧ (routerIntent s = "edit" ∨ routerIntent s = "question" ∨ routerIntent s = "")
  ∧ (∀ (e : EntryRow) (i : String), (setEntryIntent e i).intent = normalizeIntent i)
  ∧ (∀ i : String, normalizeIntent i = "edit" ∨ normalizeIntent i = "question" ∨
       normalizeIntent i = "") := by
  have hfix : normalizeIntent (routerIntent s) = routerIntent s := by
    rcases routerIntent_cases s with h | h | h <;> rw [h] <;> decide
  refine ⟨?_, hfix, routerIntent_cases s, fun e i => rfl, normalizeIntent_cases⟩
  unfold routerIntentSpec routerIntent
  by_cases h1 : goHasPrefix (goToLower (goTrimSpace s)) "edit" = true
  · rw [if_pos h1, if_pos (Or.inr h1)]
  · have hc1 : ¬(goToLower (goTrimSpace s) = "edit" ∨
        goHasPrefix (goToLower (goTrimSpace s)) "edit" = true) := by
      rintro (he | hp)
      · exact h1 (he ▸ hasPrefix_of_self "edit")
      · exact h1 hp
    rw [if_neg h1, if_neg hc1]
    by_cases h2 : goHasPrefix (goToLower (goTrimSpace s)) "question" = true
    · rw [if_pos h2, if_pos (Or.inr h2)]
    · have hc2 : ¬(goToLower (goTrimSpace s) = "question" ∨
          goHasPrefix (goToLower (goTrimSpace s)) "question" = true) := by
        rintro (he | hp)
        · exact h2 (he ▸ hasPrefix_of_self "question")
        · exact h2 hp
      rw [if_neg h2, if_neg hc2]

/-- C10: setNotebookEntryOutputForModel selects the output_claude column
exactly when the model name lowercases to "claude"; gemini, aider and
router all write the same single output column, so persisting output for
two such non-claude models on the same entry overwrites the earlier value
with the later one. -/
theorem setOutput_column_selection :
    outputColForModel "claude" = "output_claude"
  ∧ outputColForModel "Claude" = "output_claude"
  ∧ outputColForModel "CLAUDE" = "output_claude"
  ∧ outputColForModel "gemini" = "output"
  ∧ outputColForModel "aider" = "output"
  ∧ outputColForModel "router" = "output"
  ∧ (∀ (e : EntryRow) (m out : String),
       (setEntryOutputForModel e m out).output =
         (if goToLower m = "claude" then e.output else out)
     ∧ (setEntryOutputForModel e m out).outputClaude =
         (if goToLower m = "claude" then out else e.outputClaude))
  ∧ (∀ (e : EntryRow) (a b : String),
       (setEntryOutputForModel (setEntryOutputForModel e "gemini" a) "aider" b).output = b
     ∧ (setEntryOutputForModel (setEntryOutputForModel e "gemini" a) "aider" b).outputClaude
         = e.outputClaude) := by
  refine ⟨by decide, by decide, by decide, by decide, by decide, by decide, ?_, ?_⟩
  · intro e m out
    unfold setEntryOutputForModel
    split <;> exact ⟨rfl, rfl⟩
  · intro e a b
    exact ⟨rfl, rfl⟩

/-- C3: when the client-side cancellation signal fires before the
dispatched process exits, the process is killed (cmd.Wait reports an
error), the output-persistence write is attempted on the already-cancelled
request context and therefore leaves the entry unchanged, and the client
observes no further chunk: the stream ends without a terminal success or
error marker. The statement covers every wait outcome under a cancelled
request. -/
theorem cancelled_run_no_persist_no_marker (model buf : String)
    (waitErr : Option String) (e : EntryRow) (stream : List String) :
    runAfterStart model buf waitErr true e stream = (e, stream) := by
  unfold runAfterStart execSetOutputForModel execSetIntent emitChunk
  cases waitErr with
  | some errText => simp
  | none => split <;> simp

/-- C5: a dispatched process that exits with non-zero status on a live
(non-cancelled) request gets its accumulated output persisted as the
output of that entry for that model — output_claude for claude, the shared
output column otherwise — and a terminal error marker carrying the exit
error text is appended to the stream. -/
theorem failed_run_persists_and_marks (model buf errText : String)
    (e : EntryRow) (stream : List String) :
    (runAfterStart model buf (some errText) false e stream).1 =
      setEntryOutputForModel e model buf
  ∧ (runAfterStart model buf (some errText) false e stream).1.output =
      (if goToLower model = "claude" then e.output else buf)
  ∧ (runAfterStart model buf (some errText) false e stream).1.outputClaude =
      (if goToLower model = "claude" then buf else e.outputClaude)
  ∧ (runAfterStart model buf (some errText) false e stream).2 =
      stream ++ ["\n[" ++ model ++ " exited with error: " ++ errText ++ "]\n"] := by
  refine ⟨rfl, ?_, ?_, rfl⟩
  · show (setEntryOutputForModel e model buf).output = _
    unfold setEntryOutputForModel
    split <;> rfl
  · show (setEntryOutputForModel e model buf).outputClaude = _
    unfold setEntryOutputForModel
    split <;> rfl

/-- C4 counterexample: dispatching the router against a fresh entry with a
process that exits non-zero after emitting "boom" (on a live request)
writes "boom" into the shared output column, so the claim that no
per-model output column is ever modified by a router dispatch, regardless
of exit status, is false. -/
theorem router_error_writes_output_column :
    (runAfterStart "router" "boom" (some "exit status 1") false freshEntry []).1.output
      = "boom"
  ∧ freshEntry.output = "" := by
  constructor <;> decide

/-- C4 amended: when the router process exits with success status, no
per-model output column of the entry is modified — the only persisted
effect is the intent field; but when the router process exits non-zero on
a live request, runHandler persists the accumulated output into the shared
output column like any other non-claude model. -/
theorem router_dispatch_output_columns (buf : String) (cancelled : Bool)
    (e : EntryRow) (stream : List String) :
    (runAfterStart "router" buf none cancelled e stream).1.output = e.output
  ∧ (runAfterStart "router" buf none cancelled e stream).1.outputClaude = e.outputClaude
  ∧ (runAfterStart "router" buf none cancelled e stream).1.prompt = e.prompt
  ∧ (runAfterStart "router" buf none cancelled e stream).1.idx = e.idx
  ∧ (runAfterStart "router" buf none cancelled e stream).1.intent =
      (if cancelled then e.intent else normalizeIntent (routerIntent buf))
  ∧ (∀ errText : String,
       (runAfterStart "router" buf (some errText) false e stream).1.output = buf) := by
  refine ⟨?_, ?_, ?_, ?_, ?_, fun errText => rfl⟩
  all_goals cases cancelled <;> rfl

/-- C6: starting from a destination without the complete-clone marker,
once ensureRepoCloned returns success it has invoked the clone routine
exactly once and left the marker in place, and a second call without
intervening deletion observes the marker, invokes the clone routine zero
times and changes nothing: across the two calls exactly one clone
operation is performed. -/
theorem ensureRepoCloned_idempotent (run : List String → Option (String × String))
    (src dest : String) (fs : RepoFS) (h0 : fs.gitDir = false)
    (h1 : (ensureRepoCloned run src dest fs).result = Except.ok ()) :
    (ensureRepoCloned run src dest fs).cloneCalls = 1
  ∧ (ensureRepoCloned run src dest fs).fs.gitDir = true
  ∧ ensureRepoCloned run src dest (ensureRepoCloned run src dest fs).fs =
      { fs := (ensureRepoCloned run src dest fs).fs, cloneCalls := 0,
        result := Except.ok () } := by
  have hcalls : (ensureRepoCloned run src dest fs).cloneCalls = 1 := by
    simp [ensureRepoCloned, h0]
  have hres : (cloneRepo run src dest
      (if fs.dest then { gitDir := false, dest := false } else fs)).result =
        Except.ok () := by
    simpa [ensureRepoCloned, h0] using h1
  have hfs : (ensureRepoCloned run src dest fs).fs =
      ({ gitDir := true, dest := true } : RepoFS) := by
    simp only [ensureRepoCloned, h0, Bool.false_eq_true, if_false]
    exact cloneLoop_ok_fs run (cloneAttempts src dest) _ (by simp [cloneAttempts]) hres
  refine ⟨hcalls, by rw [hfs], ?_⟩
  rw [hfs]
  simp [ensureRepoCloned]

/-- Witness for C6 at a concrete input: a fresh destination and a clone
oracle whose first attempt succeeds. -/
theorem ensureRepoCloned_idempotent_witness :
    (ensureRepoCloned runAlwaysOk "srcurl" "destdir"
        { gitDir := false, dest := false }).cloneCalls = 1
  ∧ (ensureRepoCloned runAlwaysOk "srcurl" "destdir"
        (ensureRepoCloned runAlwaysOk "srcurl" "destdir"
          { gitDir := false, dest := false }).fs).cloneCalls = 0 := by
  have h := ensureRepoCloned_idempotent runAlwaysOk "srcurl" "destdir"
    { gitDir := false, dest := false } rfl rfl
  exact ⟨h.1, by rw [h.2.2]⟩

/-- C7: cloneRepo runs its attempts in the order named branch main, then
master, then the default branch, stopping at the first success; when all
three attempts fail, all three were executed and the returned error
carries the error and combined diagnostic output of the final attempt. -/
theorem cloneRepo_attempt_order (run : List String → Option (String × String))
    (src dest : String) (fs : RepoFS) :
    cloneAttempts src dest =
      [attemptMain src dest, attemptMaster src dest, attemptDefault src dest]
  ∧ (run (attemptMain src dest) = none →
       (cloneRepo run src dest fs).tried = [attemptMain src dest]
     ∧ (cloneRepo run src dest fs).result = Except.ok ())
  ∧ (∀ e1 o1, run (attemptMain src dest) = some (e1, o1) →
       run (attemptMaster src dest) = none →
       (cloneRepo run src dest fs).tried = [attemptMain src dest, attemptMaster src dest]
     ∧ (cloneRepo run src dest fs).result = Except.ok ())
  ∧ (∀ e1 o1 e2 o2 e3 o3, run (attemptMain src dest) = some (e1, o1) →
       run (attemptMaster src dest) = some (e2, o2) →
       run (attemptDefault src dest) = some (e3, o3) →
       (cloneRepo run src dest fs).tried =
         [attemptMain src dest, attemptMaster src dest, attemptDefault src dest]
     ∧ (cloneRepo run src dest fs).result =
         Except.error ("git clone failed: " ++ e3 ++ "\n" ++ o3)) := by
  refine ⟨rfl, ?_, ?_, ?_⟩
  · intro h1
    constructor <;> simp [cloneRepo, cloneAttempts, cloneLoop, h1]
  · intro e1 o1 h1 h2
    constructor <;> simp [cloneRepo, cloneAttempts, cloneLoop, h1, h2]
  · intro e1 o1 e2 o2 e3 o3 h1 h2 h3
    constructor <;> simp [cloneRepo, cloneAttempts, cloneLoop, h1, h2, h3]

/-- Witness for C7 at a concrete input: an oracle failing every attempt
makes cloneRepo execute all three attempts and report the error and
diagnostic output of the final attempt. -/
theorem cloneRepo_attempt_order_witness :
    (cloneRepo runAllFail "srcurl" "destdir" { gitDir := false, dest := false }).tried =
      [attemptMain "srcurl" "destdir", attemptMaster "srcurl" "destdir",
       attemptDefault "srcurl" "destdir"]
  ∧ (cloneRepo runAllFail "srcurl" "destdir" { gitDir := false, dest := false }).result =
      Except.error ("git clone failed: " ++ "exit status 128" ++ "\n" ++
        "fatal: repository not found") :=
  (cloneRepo_attempt_order runAllFail "srcurl" "destdir"
      { gitDir := false, dest := false }).2.2.2
    "exit status 128" "fatal: repository not found"
    "exit status 128" "fatal: repository not found"
    "exit status 128" "fatal: repository not found" rfl rfl rfl

/-- C8: when git worktree add fails, createNotebook returns an error and
the notebooks table is unchanged — in fact any failing step leaves the
table unchanged — and a notebook row is inserted only on full success,
after the worktree exists, carrying exactly the branch name and head
commit read back from the created worktree. -/
theorem createNotebook_all_or_nothing (org repo id : String) (mk wt : Except String Unit)
    (bc : Except String (String × String)) (ins : Except String Unit)
    (rows : List NotebookRow) :
    (∀ e : String, mk = Except.ok () → wt = Except.error e →
       createNotebook org repo id mk wt bc ins rows =
         (Except.error ("create worktree: " ++ e), rows))
  ∧ (∀ e : String, (createNotebook org repo id mk wt bc ins rows).1 = Except.error e →
       (createNotebook org repo id mk wt bc ins rows).2 = rows)
  ∧ (∀ nid : String, (createNotebook org repo id mk wt bc ins rows).1 = Except.ok nid →
       wt = Except.ok () ∧ nid = id ∧ ∃ b sha,
         bc = Except.ok (b, sha) ∧
         (createNotebook org repo id mk wt bc ins rows).2 =
           rows ++ [{ id := id, org := org, repo := repo, branch := b,
                      worktree := "nb-" ++ id, commitSha := sha }]) := by
  refine ⟨?_, ?_, ?_⟩
  · intro e hmk hwt
    subst hmk
    subst hwt
    rfl
  · intro e herr
    rcases mk with e0 | _
    · rfl
    rcases wt with e1 | _
    · rfl
    rcases bc with e2 | ⟨b, sha⟩
    · rfl
    rcases ins with e3 | _
    · rfl
    · simp [createNotebook] at herr
  · intro nid hok
    rcases mk with e0 | _
    · simp [createNotebook] at hok
    rcases wt with e1 | _
    · simp [createNotebook] at hok
    rcases bc with e2 | ⟨b, sha⟩
    · simp [createNotebook] at hok
    rcases ins with e3 | _
    · simp [createNotebook] at hok
    · have h2 : (Except.ok id : Except String String) = Except.ok nid := hok
      have hid : id = nid := by injection h2
      exact ⟨rfl, hid.symm, b, sha, rfl, rfl⟩

/-- Witness for C8 at a concrete input: the worktree creation fails with a
non-zero git exit, and the notebooks table stays empty. -/
theorem createNotebook_all_or_nothing_witness :
    createNotebook "acme" "widgets" "abc123" (Except.ok ())
        (Except.error "exit status 128") (Except.ok ("nb-abc123", "c0ffee"))
        (Except.ok ()) ([] : List NotebookRow) =
      (Except.error ("create worktree: " ++ "exit status 128"),
       ([] : List NotebookRow)) :=
  (createNotebook_all_or_nothing "acme" "widgets" "abc123" (Except.ok ())
    (Except.error "exit status 128") (Except.ok ("nb-abc123", "c0ffee"))
    (Except.ok ()) []).1 "exit status 128" rfl rfl

/-- C9: isSafeToken accepts exactly the non-empty strings over the charset
of dash, underscore, dot, ASCII letters and digits; in particular it
accepts the strings "." and ".." made of dots only, and for the
validator-accepted pair with org ".." and repo "r" the clone directory
path obtained by joining the clone base directory with org and repo
resolves outside the clone base directory. -/
theorem isSafeToken_charset_and_escape :
    (∀ s : String, isSafeToken s = true ↔ (s ≠ "" ∧ ∀ c ∈ s.data,
       (c = '-' ∨ c = '_' ∨ c = '.' ∨ ('a' ≤ c ∧ c ≤ 'z') ∨
        ('A' ≤ c ∧ c ≤ 'Z') ∨ ('0' ≤ c ∧ c ≤ '9'))))
  ∧ isSafeToken "." = true
  ∧ isSafeToken ".." = true
  ∧ isSafeToken "r" = true
  ∧ List.isPrefixOf cloneBase (repoDirComponents cloneBase ".." "r") = false
  ∧ repoDirComponents cloneBase ".." "r" = ["home", "user", ".trybook", "r"] := by
  refine ⟨?_, by decide, by decide, by decide, by decide, by decide⟩
  intro s
  unfold isSafeToken
  split
  · rename_i h
    subst h
    simp
  · rename_i h
    rw [List.all_eq_true]
    constructor
    · intro hall
      refine ⟨h, fun c hc => ?_⟩
      have := hall c hc
      unfold isSafeChar at this
      split at this
      · assumption
      · exact absurd this (by simp)
    · intro ⟨_, hall⟩ c hc
      unfold isSafeChar
      rw [if_pos (hall c hc)]

end Trybook
